import Mathlib

/-!
Shallow embedding of the mbc-tracker assessment scheduling & compliance
engine, translated from the TypeScript source:

* `src/lib/scoring.ts` — pure scoring functions (`scoreAssessment`,
  `getSeverityBand`, `scoreMeasure`, PHQ-9/GAD-7 tables);
* `src/lib/scheduling.ts` — `getDefaultPolicy`, `createMeasureInstances`,
  `generateUpcomingInstances`, `markExpiredInstances`;
* `src/lib/audit.ts` — `logAuditEvent` (fire-and-forget audit sink);
* `src/app/api/q/[token]/route.ts` — questionnaire GET (load by token)
  and POST (submit answers) handlers;
* `src/app/api/notifications/send/route.ts` — manual send handler;
* `src/app/api/compliance/route.ts` — compliance-rate metric.

Modelling conventions: timestamps are integers counted in days (the
source adds day counts to JS `Date`s via `setDate`); database-generated
ids and unguessable tokens are modelled by a `nextId` counter in the
database state; Prisma queries become pure functions over an explicit
`Db` record; `async` functions that may reject become `Except`-returning
functions; the audit sink's possible write failure is an explicit
`sinkOk : Bool` parameter threaded through the handlers.
-/

namespace MbcTracker

/-- Decidable equality for `Except`, so concrete handler outcomes can be
checked by evaluation. -/
instance instDecEqExcept {ε α : Type} [DecidableEq ε] [DecidableEq α] :
    DecidableEq (Except ε α) := fun a b =>
  match a, b with
  | Except.ok x, Except.ok y =>
    match decEq x y with
    | isTrue h => isTrue (congrArg Except.ok h)
    | isFalse h => isFalse (fun hh => h (Except.ok.inj hh))
  | Except.error x, Except.error y =>
    match decEq x y with
    | isTrue h => isTrue (congrArg Except.error h)
    | isFalse h => isFalse (fun hh => h (Except.error.inj hh))
  | Except.ok _, Except.error _ => isFalse (fun hh => Except.noConfusion hh)
  | Except.error _, Except.ok _ => isFalse (fun hh => Except.noConfusion hh)

/-- Lifecycle status of a measure instance (Prisma enum
`MeasureInstanceStatus`). -/
inductive MeasureInstanceStatus where
  | PENDING
  | SENT
  | STARTED
  | COMPLETED
  | EXPIRED
  | CANCELLED
deriving DecidableEq, Repr

/-- String form of a status, as interpolated into error messages by the
notifications send route. -/
def statusToString : MeasureInstanceStatus → String
  | MeasureInstanceStatus.PENDING => "PENDING"
  | MeasureInstanceStatus.SENT => "SENT"
  | MeasureInstanceStatus.STARTED => "STARTED"
  | MeasureInstanceStatus.COMPLETED => "COMPLETED"
  | MeasureInstanceStatus.EXPIRED => "EXPIRED"
  | MeasureInstanceStatus.CANCELLED => "CANCELLED"

/-- One submitted answer (`Answer` in `scoring.ts`). -/
structure Answer where
  questionNum : Int
  value : Int
deriving DecidableEq, Repr

/-- One severity band (`SeverityBand` in `scoring.ts`). -/
structure SeverityBand where
  label : String
  minScore : Int
  maxScore : Int
deriving DecidableEq, Repr

/-- Result of scoring an assessment (`ScoringResult` in `scoring.ts`). -/
structure ScoringResult where
  totalScore : Int
  severityBand : String
  maxPossibleScore : Int
  answeredQuestions : Nat
deriving DecidableEq, Repr

/-- PHQ-9 severity bands from `scoring.ts`. -/
def PHQ9_SEVERITY_BANDS : List SeverityBand :=
  [⟨"minimal", 0, 4⟩, ⟨"mild", 5, 9⟩, ⟨"moderate", 10, 14⟩,
   ⟨"moderately_severe", 15, 19⟩, ⟨"severe", 20, 27⟩]

/-- GAD-7 severity bands from `scoring.ts`. -/
def GAD7_SEVERITY_BANDS : List SeverityBand :=
  [⟨"minimal", 0, 4⟩, ⟨"mild", 5, 9⟩, ⟨"moderate", 10, 14⟩,
   ⟨"severe", 15, 21⟩]

def PHQ9_QUESTION_COUNT : Nat := 9

def GAD7_QUESTION_COUNT : Nat := 7

/-- Left-to-right accumulation of answer values, throwing at the first
value outside 0..3 (the `reduce` body in `scoreAssessment`). -/
def totalScoreAux (acc : Int) : List Answer → Except String Int
  | [] => Except.ok acc
  | a :: rest =>
    if a.value < 0 ∨ a.value > 3 then
      Except.error ("Invalid answer value: " ++ toString a.value ++ ". Must be 0-3.")
    else
      totalScoreAux (acc + a.value) rest

/-- Severity-band lookup (`getSeverityBand` in `scoring.ts`): first band
containing the score, or a thrown error when none does. -/
def getSeverityBand (score : Int) (bands : List SeverityBand) : Except String String :=
  match bands.find? (fun b => decide (b.minScore ≤ score ∧ score ≤ b.maxScore)) with
  | some b => Except.ok b.label
  | none =>
    Except.error ("Score " ++ toString score ++ " does not fall within any severity band")

/-- Generic scoring (`scoreAssessment` in `scoring.ts`): rejects an empty
answer list, sums the values rejecting any outside 0..3, and looks up the
severity band.  The expected question count is used only for
`maxPossibleScore`. -/
def scoreAssessment (answers : List Answer) (severityBands : List SeverityBand)
    (expectedQuestionCount : Nat) : Except String ScoringResult :=
  if answers.isEmpty then
    Except.error "No answers provided"
  else
    match totalScoreAux 0 answers with
    | Except.error e => Except.error e
    | Except.ok totalScore =>
      match getSeverityBand totalScore severityBands with
      | Except.error e => Except.error e
      | Except.ok band =>
        Except.ok ⟨totalScore, band, (expectedQuestionCount : Int) * 3, answers.length⟩

/-- PHQ-9 scoring (`scorePHQ9`). -/
def scorePHQ9 (answers : List Answer) : Except String ScoringResult :=
  scoreAssessment answers PHQ9_SEVERITY_BANDS PHQ9_QUESTION_COUNT

/-- GAD-7 scoring (`scoreGAD7`). -/
def scoreGAD7 (answers : List Answer) : Except String ScoringResult :=
  scoreAssessment answers GAD7_SEVERITY_BANDS GAD7_QUESTION_COUNT

/-- ASCII upper-casing (JS `toUpperCase`), written over the character
list so it evaluates by reduction. -/
def toUpperCase (s : String) : String :=
  ⟨s.data.map Char.toUpper⟩

/-- Dynamic dispatch by measure name (`scoreMeasure` in `scoring.ts`). -/
def scoreMeasure (measureName : String) (answers : List Answer) : Except String ScoringResult :=
  if toUpperCase measureName = "PHQ-9" then scorePHQ9 answers
  else if toUpperCase measureName = "GAD-7" then scoreGAD7 answers
  else Except.error ("Unknown measure: " ++ measureName)

/-- One questionnaire question row (Prisma model `Question`). -/
structure Question where
  questionNum : Nat
  questionText : String
  minValue : Int
  maxValue : Int
deriving DecidableEq, Repr

/-- One measure definition row (Prisma model `Measure`). -/
structure Measure where
  id : Nat
  name : String
  description : String
  questions : List Question
deriving DecidableEq, Repr

/-- One assessment instance row (Prisma model `MeasureInstance`).
Timestamps are integer day counts. -/
structure MeasureInstance where
  id : Nat
  token : Nat
  patientId : Nat
  measureId : Nat
  appointmentId : Option Nat
  dueDate : Int
  expiresAt : Int
  status : MeasureInstanceStatus
  sentAt : Option Int
  startedAt : Option Int
  completedAt : Option Int
deriving DecidableEq, Repr

/-- Data of one response row as created by the submit handler (Prisma
model `MeasureResponse`, the fields of the `create` payload). -/
structure MeasureResponse where
  measureInstanceId : Nat
  answers : List Answer
  totalScore : Int
  severityBand : String
deriving DecidableEq, Repr

/-- Patient fields the handlers read (Prisma model `Patient`). -/
structure Patient where
  id : Nat
  firstName : String
  email : Option String
deriving DecidableEq, Repr

/-- Appointment fields the scheduler reads (Prisma model `Appointment`). -/
structure Appointment where
  id : Nat
  patientId : Nat
  scheduledAt : Int
  isCancelled : Bool
deriving DecidableEq, Repr

/-- MBC policy row (Prisma model `MbcPolicy`). -/
structure MbcPolicy where
  name : String
  cadenceDays : Int
  graceWindowDays : Int
  expirationDays : Int
  measuresRequired : List String
  requireAtIntake : Bool
deriving DecidableEq, Repr

/-- Audit event kinds (Prisma enum `AuditEventType`). -/
inductive AuditEventType where
  | INSTANCE_CREATED
  | LINK_GENERATED
  | LINK_SENT
  | QUESTIONNAIRE_STARTED
  | QUESTIONNAIRE_SUBMITTED
  | SCORE_COMPUTED
  | CLINICIAN_VIEWED_CHART
  | PATIENT_CREATED
  | PATIENT_UPDATED
  | APPOINTMENT_CREATED
  | APPOINTMENT_CANCELLED
  | USER_LOGIN
deriving DecidableEq, Repr

/-- Context passed to `logAuditEvent` (`AuditContext` in `audit.ts`);
structured JSON metadata is modelled as a key/value list. -/
structure AuditContext where
  userId : Option Nat
  patientId : Option Nat
  resourceType : Option String
  resourceId : Option Nat
  metadata : List (String × String)
  ipAddress : Option String
  userAgent : Option String
deriving DecidableEq, Repr

/-- One persisted audit record (Prisma model `AuditEvent`). -/
structure AuditEvent where
  eventType : AuditEventType
  userId : Option Nat
  patientId : Option Nat
  resourceType : Option String
  resourceId : Option Nat
  metadata : List (String × String)
  ipAddress : Option String
  userAgent : Option String
deriving DecidableEq, Repr

/-- Underlying audit-record insert (`prisma.auditEvent.create` in
`logAuditEvent`): appends on success, rejects when the sink fails. -/
def auditEventCreate (sinkOk : Bool) (e : AuditEvent) (log : List AuditEvent) :
    Except String (List AuditEvent) :=
  if sinkOk then Except.ok (log ++ [e]) else Except.error "audit write failed"

/-- Fire-and-forget audit write (`logAuditEvent` in `audit.ts`): the
underlying create is wrapped in try/catch, so a failed write is swallowed
(only logged to the console) and the function always resolves. -/
def logAuditEvent (sinkOk : Bool) (eventType : AuditEventType) (context : AuditContext)
    (log : List AuditEvent) : Except String (List AuditEvent) :=
  match auditEventCreate sinkOk
      ⟨eventType, context.userId, context.patientId, context.resourceType,
       context.resourceId, context.metadata, context.ipAddress, context.userAgent⟩ log with
  | Except.ok updated => Except.ok updated
  | Except.error _ => Except.ok log

/-- Awaiting `logAuditEvent` inside a handler: since it always resolves,
this never throws into the caller. -/
def runLogAuditEvent (sinkOk : Bool) (eventType : AuditEventType) (context : AuditContext)
    (log : List AuditEvent) : List AuditEvent :=
  match logAuditEvent sinkOk eventType context log with
  | Except.ok updated => updated
  | Except.error _ => log

/-- HTTP error response: status code and error message. -/
structure ErrorResponse where
  httpStatus : Nat
  message : String
deriving DecidableEq, Repr

/-- One question as serialized by the questionnaire GET handler. -/
structure QuestionPayload where
  questionNum : Nat
  questionText : String
  minValue : Int
  maxValue : Int
deriving DecidableEq, Repr

/-- Success payload of the questionnaire GET handler. -/
structure QuestionnairePayload where
  instanceId : Nat
  measureName : String
  measureDescription : String
  patientFirstName : String
  questions : List QuestionPayload
deriving DecidableEq, Repr

/-- Questionnaire GET handler (`GET` in `src/app/api/q/[token]/route.ts`).
The token lookup with its joined measure and patient first name is the
`found` argument (`none` models `findUnique` returning null).  Returns the
handler outcome — on success the possibly-updated instance row and the
serialized payload — together with the audit log after the handler ran. -/
def questionnaireGET (sinkOk : Bool) (found : Option (MeasureInstance × Measure × String))
    (now : Int) (ipAddress userAgent : Option String) (log : List AuditEvent) :
    Except ErrorResponse (MeasureInstance × QuestionnairePayload) × List AuditEvent :=
  match found with
  | none => (Except.error ⟨404, "Invalid or expired link"⟩, log)
  | some (inst, m, patientFirstName) =>
    if inst.status = MeasureInstanceStatus.COMPLETED then
      (Except.error ⟨400, "This questionnaire has already been completed"⟩, log)
    else if inst.status = MeasureInstanceStatus.EXPIRED ∨ inst.expiresAt < now then
      (Except.error ⟨400, "This link has expired"⟩, log)
    else
      let payload : QuestionnairePayload :=
        ⟨inst.id, m.name, m.description, patientFirstName,
         m.questions.map (fun q => ⟨q.questionNum, q.questionText, q.minValue, q.maxValue⟩)⟩
      if inst.status = MeasureInstanceStatus.PENDING ∨ inst.status = MeasureInstanceStatus.SENT then
        (Except.ok
          ({ inst with status := MeasureInstanceStatus.STARTED, startedAt := some now }, payload),
         runLogAuditEvent sinkOk AuditEventType.QUESTIONNAIRE_STARTED
           ⟨none, some inst.patientId, some "MeasureInstance", some inst.id, [],
            ipAddress, userAgent⟩ log)
      else
        (Except.ok (inst, payload), log)

/-- Questionnaire POST handler (`POST` in `src/app/api/q/[token]/route.ts`).
The request body's `answers` field is `none` when missing or not an array.
On success the `prisma.$transaction` block atomically creates the response
row and marks the instance COMPLETED, modelled by returning both in the
`ok` payload; the two follow-up audit writes extend the log. -/
def questionnairePOST (sinkOk : Bool) (found : Option (MeasureInstance × Measure))
    (answers : Option (List Answer)) (now : Int) (ipAddress userAgent : Option String)
    (log : List AuditEvent) :
    Except ErrorResponse (MeasureInstance × MeasureResponse) × List AuditEvent :=
  match found with
  | none => (Except.error ⟨404, "Invalid or expired link"⟩, log)
  | some (inst, m) =>
    if inst.status = MeasureInstanceStatus.COMPLETED then
      (Except.error ⟨400, "This questionnaire has already been completed"⟩, log)
    else if inst.expiresAt < now then
      (Except.error ⟨400, "This link has expired"⟩, log)
    else
      match answers with
      | none => (Except.error ⟨400, "Invalid answers format"⟩, log)
      | some answerList =>
        match scoreMeasure m.name answerList with
        | Except.error msg => (Except.error ⟨400, msg⟩, log)
        | Except.ok scoringResult =>
          let response : MeasureResponse :=
            ⟨inst.id, answerList, scoringResult.totalScore, scoringResult.severityBand⟩
          let updated : MeasureInstance :=
            { inst with status := MeasureInstanceStatus.COMPLETED, completedAt := some now }
          let log1 := runLogAuditEvent sinkOk AuditEventType.QUESTIONNAIRE_SUBMITTED
            ⟨none, some inst.patientId, some "MeasureResponse", some inst.id,
             [("measureName", m.name), ("totalScore", toString scoringResult.totalScore),
              ("severityBand", scoringResult.severityBand)],
             ipAddress, userAgent⟩ log
          let log2 := runLogAuditEvent sinkOk AuditEventType.SCORE_COMPUTED
            ⟨none, some inst.patientId, some "MeasureResponse", some inst.id,
             [("totalScore", toString scoringResult.totalScore),
              ("severityBand", scoringResult.severityBand),
              ("maxPossibleScore", toString scoringResult.maxPossibleScore)],
             none, none⟩ log1
          (Except.ok (updated, response), log2)

/-- Outcome reported by the notification collaborator
(`sendMagicLinkEmail`). -/
structure SendResult where
  success : Bool
  messageId : Option String
  error : Option String
deriving DecidableEq, Repr

/-- Manual send handler (`POST` in
`src/app/api/notifications/send/route.ts`).  `instanceIdGiven` models the
request body carrying an `instanceId`; `found` models the instance lookup
with its joined patient and measure; `sendResult` is the notification
collaborator's outcome.  On success returns the instance updated to SENT. -/
def notificationsSendPOST (sinkOk : Bool) (instanceIdGiven : Bool) (channel : String)
    (found : Option (MeasureInstance × Patient × Measure)) (sendResult : SendResult)
    (now : Int) (log : List AuditEvent) :
    Except ErrorResponse MeasureInstance × List AuditEvent :=
  if ¬ instanceIdGiven then
    (Except.error ⟨400, "instanceId is required"⟩, log)
  else if channel ≠ "email" then
    (Except.error ⟨400, "Only email channel is currently supported"⟩, log)
  else
    match found with
    | none => (Except.error ⟨404, "Measure instance not found"⟩, log)
    | some (inst, patient, _m) =>
      match patient.email with
      | none => (Except.error ⟨400, "Patient does not have an email address"⟩, log)
      | some recipientEmail =>
        if inst.status = MeasureInstanceStatus.COMPLETED ∨
            inst.status = MeasureInstanceStatus.CANCELLED then
          (Except.error
            ⟨400, "Cannot send notification for " ++ statusToString inst.status ++ " instance"⟩,
           log)
        else if inst.status = MeasureInstanceStatus.EXPIRED then
          (Except.error ⟨400, "Cannot send notification for expired instance"⟩, log)
        else if ¬ sendResult.success then
          (Except.error
            ⟨500, "Failed to send email: " ++ sendResult.error.getD "undefined"⟩, log)
        else
          let updated : MeasureInstance :=
            { inst with status := MeasureInstanceStatus.SENT, sentAt := some now }
          let logAfter := runLogAuditEvent sinkOk AuditEventType.LINK_SENT
            ⟨none, some inst.patientId, some "MeasureInstance", some inst.id,
             [("channel", "email"), ("messageId", sendResult.messageId.getD "undefined"),
              ("recipientEmail", recipientEmail)],
             none, none⟩ log
          (Except.ok updated, logAfter)

/-- Database state visible to the scheduling service and the submit
path.  `nextId` models database-generated ids; freshly created rows take
consecutive ids from it, and the access token reuses the id (both are
unique per row in the source schema). -/
structure Db where
  policy : Option MbcPolicy
  measures : List Measure
  appointments : List Appointment
  instances : List MeasureInstance
  responses : List MeasureResponse
  nextId : Nat
deriving DecidableEq, Repr

/-- Hard-coded default policy created on first access
(`getDefaultPolicy` in `scheduling.ts`). -/
def defaultPolicy : MbcPolicy :=
  ⟨"default", 14, 3, 7, ["PHQ-9", "GAD-7"], true⟩

/-- Policy read with create-if-absent (`getDefaultPolicy`). -/
def getDefaultPolicy (stored : Option MbcPolicy) : MbcPolicy :=
  match stored with
  | some policy => policy
  | none => defaultPolicy

/-- One freshly created instance row (the `prisma.measureInstance.create`
payload in `createMeasureInstances`; id and token are database-generated,
modelled by the counter). -/
def mkInstance (patientId : Nat) (appointmentId : Option Nat) (dueDate expiresAt : Int)
    (measureId : Nat) (id : Nat) : MeasureInstance :=
  ⟨id, id, patientId, measureId, appointmentId, dueDate, expiresAt,
   MeasureInstanceStatus.PENDING, none, none, none⟩

/-- The `measures.map(create)` loop of `createMeasureInstances`: one new
PENDING row per matched measure, with consecutive fresh ids. -/
def mkInstances (patientId : Nat) (appointmentId : Option Nat) (dueDate expiresAt : Int)
    (startId : Nat) : List Measure → List MeasureInstance
  | [] => []
  | meas :: rest =>
    mkInstance patientId appointmentId dueDate expiresAt meas.id startId ::
      mkInstances patientId appointmentId dueDate expiresAt (startId + 1) rest

/-- The `audit.instanceCreated` loop of `createMeasureInstances`. -/
def auditInstancesCreated (sinkOk : Bool) (userId : Option Nat) (patientId : Nat)
    (appointmentId : Option Nat) (dueDate : Int) (log : List AuditEvent) :
    List MeasureInstance → List AuditEvent
  | [] => log
  | inst :: rest =>
    auditInstancesCreated sinkOk userId patientId appointmentId dueDate
      (runLogAuditEvent sinkOk AuditEventType.INSTANCE_CREATED
        ⟨userId, some patientId, some "MeasureInstance", some inst.id,
         [("measureId", toString inst.measureId),
          ("appointmentId", toString (appointmentId.getD 0)),
          ("dueDate", toString dueDate)],
         none, none⟩ log) rest

/-- Instance generation for one patient (`createMeasureInstances` in
`scheduling.ts`): reads the active policy (creating the default if
absent), selects the measures whose name is in `measuresRequired`,
defaults the due date to now, computes `expiresAt = dueDate +
expirationDays`, and unconditionally creates one PENDING instance per
selected measure, emitting one INSTANCE_CREATED audit event each.
Returns the new database, the created rows, and the audit log. -/
def createMeasureInstances (db : Db) (sinkOk : Bool) (log : List AuditEvent)
    (patientId : Nat) (appointmentId : Option Nat) (dueDate : Option Int)
    (userId : Option Nat) (now : Int) :
    Db × List MeasureInstance × List AuditEvent :=
  let policy := getDefaultPolicy db.policy
  let measures := db.measures.filter (fun m => policy.measuresRequired.contains m.name)
  let effectiveDueDate := dueDate.getD now
  let expiresAt := effectiveDueDate + policy.expirationDays
  let created := mkInstances patientId appointmentId effectiveDueDate expiresAt db.nextId measures
  let logAfter := auditInstancesCreated sinkOk userId patientId appointmentId
    effectiveDueDate log created
  ({ db with policy := some policy,
             instances := db.instances ++ created,
             nextId := db.nextId + created.length },
   created, logAfter)

/-- The per-appointment loop of `generateUpcomingInstances`. -/
def processAppointments (db : Db) (sinkOk : Bool) (log : List AuditEvent) (now : Int) :
    List Appointment → Db × List AuditEvent
  | [] => (db, log)
  | appt :: rest =>
    let step := createMeasureInstances db sinkOk log appt.patientId (some appt.id)
      (some appt.scheduledAt) none now
    processAppointments step.1 sinkOk step.2.2 now rest

/-- Batch generator (`generateUpcomingInstances` in `scheduling.ts`):
selects non-cancelled appointments scheduled within `[now, now +
daysAhead]` that have zero associated instances, then runs the
single-patient generator for each. -/
def generateUpcomingInstances (db : Db) (sinkOk : Bool) (log : List AuditEvent)
    (daysAhead : Int) (now : Int) : Db × List AuditEvent :=
  let futureDate := now + daysAhead
  let selected := db.appointments.filter (fun a =>
    decide (now ≤ a.scheduledAt) && decide (a.scheduledAt ≤ futureDate) &&
    !a.isCancelled && !(db.instances.any (fun i => i.appointmentId = some a.id)))
  processAppointments db sinkOk log now selected

/-- Non-terminal statuses targeted by the sweep (the `status: { in:
["PENDING", "SENT", "STARTED"] }` filter). -/
def isActiveStatus : MeasureInstanceStatus → Bool
  | MeasureInstanceStatus.PENDING => true
  | MeasureInstanceStatus.SENT => true
  | MeasureInstanceStatus.STARTED => true
  | _ => false

/-- The `updateMany` where-clause of `markExpiredInstances`. -/
def shouldExpire (inst : MeasureInstance) (now : Int) : Bool :=
  isActiveStatus inst.status && decide (inst.expiresAt < now)

/-- Expiration sweep (`markExpiredInstances` in `scheduling.ts`):
bulk-updates every active instance with `expiresAt < now` to EXPIRED and
returns the affected count. -/
def markExpiredInstances (db : Db) (now : Int) : Db × Nat :=
  ({ db with instances := db.instances.map (fun i =>
      if shouldExpire i now then { i with status := MeasureInstanceStatus.EXPIRED } else i) },
   (db.instances.filter (fun i => shouldExpire i now)).length)

/-- Token lookup with the joined measure (`findUnique({ where: { token },
include: { measure: true } })` in the submit handler). -/
def findByToken (db : Db) (token : Nat) : Option (MeasureInstance × Measure) :=
  match db.instances.find? (fun i => i.token = token) with
  | none => none
  | some inst =>
    match db.measures.find? (fun m => m.id = inst.measureId) with
    | none => none
    | some m => some (inst, m)

/-- Row update by id (`prisma.measureInstance.update` inside the submit
transaction). -/
def updateInstance (instances : List MeasureInstance) (updated : MeasureInstance) :
    List MeasureInstance :=
  instances.map (fun i => if i.id = updated.id then updated else i)

/-- The submit path at the database level: runs the POST handler and
commits its transaction — on success the response row is inserted and the
instance row updated together; on error the database is untouched. -/
def submitQuestionnaire (db : Db) (sinkOk : Bool) (log : List AuditEvent) (token : Nat)
    (answers : Option (List Answer)) (now : Int) :
    Db × Option ErrorResponse × List AuditEvent :=
  match questionnairePOST sinkOk (findByToken db token) answers now none none log with
  | (Except.error e, logAfter) => (db, some e, logAfter)
  | (Except.ok (updated, response), logAfter) =>
    ({ db with instances := updateInstance db.instances updated,
               responses := db.responses ++ [response] },
     none, logAfter)

/-- Compliance-rate computation from the counts, as in
`src/app/api/compliance/route.ts`: `totalDue > 0 ? (totalCompleted /
totalDue) * 100 : 100`, then `Math.round(rate * 10) / 10` (JS
`Math.round` is floor of x + 1/2, which is Mathlib `round` on ℚ). -/
def complianceRateMetric (totalDue totalCompleted : Nat) : ℚ :=
  let rate : ℚ := if totalDue > 0 then ((totalCompleted : ℚ) / (totalDue : ℚ)) * 100 else 100
  (round (rate * 10) : ℤ) / 10

/-- Rounding to one decimal place, as the spec words it. -/
def roundToOneDecimal (x : ℚ) : ℚ :=
  ((round (x * 10) : ℤ) : ℚ) / 10

/-- The compliance rate as the spec sentence states it: exactly 100 when
nothing was due, else 100·completed/due rounded to one decimal. -/
def complianceRateSpec (totalDue totalCompleted : Nat) : ℚ :=
  if totalDue = 0 then 100
  else roundToOneDecimal (100 * (totalCompleted : ℚ) / (totalDue : ℚ))

/-- Boolean success test for handler results. -/
def isOkResult {α : Type} : Except ErrorResponse α → Bool
  | Except.ok _ => true
  | Except.error _ => false

/-- Boolean error test for handler results. -/
def isErrorResult {α : Type} : Except ErrorResponse α → Bool
  | Except.ok _ => false
  | Except.error _ => true

/-- Concrete PHQ-9 measure row used as a test fixture (nine questions
answered 0..3, as seeded). -/
def phq9Measure : Measure :=
  ⟨1, "PHQ-9", "Patient Health Questionnaire-9",
   (List.range 9).map (fun k => ⟨k + 1, "PHQ-9 question " ++ toString (k + 1), 0, 3⟩)⟩

/-- Nine in-range answers, one per PHQ-9 question, each with value 1. -/
def answersNinePHQ : List Answer :=
  (List.range 9).map (fun k => ⟨(k : Int) + 1, 1⟩)

/-- Three in-range answers — fewer than the nine PHQ-9 questions. -/
def answersThreePHQ : List Answer :=
  [⟨1, 1⟩, ⟨2, 1⟩, ⟨3, 1⟩]

/-- A CANCELLED instance whose link has not yet expired. -/
def cancelledInstance : MeasureInstance :=
  ⟨10, 10, 1, 1, none, 0, 10, MeasureInstanceStatus.CANCELLED, none, none, none⟩

/-- A COMPLETED instance fixture. -/
def completedInstance : MeasureInstance :=
  ⟨13, 13, 1, 1, none, 0, 10, MeasureInstanceStatus.COMPLETED, none, none, some 2⟩

/-- A STARTED, unexpired instance fixture. -/
def startedInstance : MeasureInstance :=
  ⟨12, 12, 1, 1, none, 0, 10, MeasureInstanceStatus.STARTED, none, some 1, none⟩

/-- A PENDING instance expiring exactly at day 5. -/
def pendingBoundaryInstance : MeasureInstance :=
  ⟨11, 11, 1, 1, none, 0, 5, MeasureInstanceStatus.PENDING, none, none, none⟩

/-- A patient fixture with an email address on file. -/
def patientWithEmail : Patient :=
  ⟨1, "Alex", some "alex.example@example.com"⟩

/-- A successful notification-collaborator outcome. -/
def sendOkResult : SendResult :=
  ⟨true, some "msg-1", none⟩

/-- Database fixture holding the PHQ-9 measure, the default policy and no
instances. -/
def dbEmpty : Db :=
  ⟨some defaultPolicy, [phq9Measure], [], [], [], 100⟩

/-- Database fixture holding one STARTED, unexpired PHQ-9 instance. -/
def dbStarted : Db :=
  ⟨some defaultPolicy, [phq9Measure], [], [startedInstance], [], 100⟩

/-- First generator call on the empty fixture. -/
def generateOnce : Db × List MeasureInstance × List AuditEvent :=
  createMeasureInstances dbEmpty true [] 1 (some 1) (some 0) none 0

/-- Second generator call, same patient and encounter. -/
def generateTwice : Db × List MeasureInstance × List AuditEvent :=
  createMeasureInstances generateOnce.1 true [] 1 (some 1) (some 0) none 0

/-- Helper: `mkInstances` creates one row per measure. -/
theorem mkInstances_length (patientId : Nat) (appointmentId : Option Nat)
    (dueDate expiresAt : Int) (startId : Nat) (measures : List Measure) :
    (mkInstances patientId appointmentId dueDate expiresAt startId measures).length =
      measures.length := by
  induction measures generalizing startId with
  | nil => rfl
  | cons m rest ih => simp [mkInstances, ih]

/-- Helper: every row `mkInstances` creates carries the given patient,
encounter, due date and expiry, and starts PENDING. -/
theorem mem_mkInstances (patientId : Nat) (appointmentId : Option Nat)
    (dueDate expiresAt : Int) (startId : Nat) (measures : List Measure)
    (inst : MeasureInstance)
    (h : inst ∈ mkInstances patientId appointmentId dueDate expiresAt startId measures) :
    inst.patientId = patientId ∧ inst.appointmentId = appointmentId ∧
    inst.dueDate = dueDate ∧ inst.expiresAt = expiresAt ∧
    inst.status = MeasureInstanceStatus.PENDING := by
  induction measures generalizing startId with
  | nil => simp [mkInstances] at h
  | cons m rest ih =>
    simp only [mkInstances, List.mem_cons] at h
    rcases h with h | h
    · subst h; exact ⟨rfl, rfl, rfl, rfl, rfl⟩
    · exact ih (startId + 1) h

/-- Claim C2 counterexample: `createMeasureInstances` is not idempotent
per encounter.  Starting from a database with the PHQ-9 measure and no
instances, one call for patient 1 / encounter 1 creates one instance, and
an immediate second identical call creates a second one — the already
instantiated measure is duplicated, not skipped, so calling twice does
not produce the same instance set as calling once. -/
theorem createMeasureInstances_not_idempotent :
    generateOnce.1.instances.length = 1 ∧
    generateTwice.1.instances.length = 2 ∧
    (generateTwice.1.instances.filter (fun i =>
      decide (i.patientId = 1) && decide (i.measureId = phq9Measure.id) &&
      decide (i.appointmentId = some 1))).length = 2 := by
  decide

/-- Claim C2 (amended): every call to `createMeasureInstances` appends
exactly one fresh instance per required measure found in the database,
regardless of any instances already present for the same patient and
encounter — nothing is skipped, so the generator itself is not
idempotent. -/
theorem createMeasureInstances_always_appends (db : Db) (sinkOk : Bool)
    (log : List AuditEvent) (patientId : Nat) (appointmentId : Option Nat)
    (dueDate : Option Int) (userId : Option Nat) (now : Int) :
    (createMeasureInstances db sinkOk log patientId appointmentId dueDate userId now).2.1.length =
      (db.measures.filter (fun m =>
        (getDefaultPolicy db.policy).measuresRequired.contains m.name)).length ∧
    (createMeasureInstances db sinkOk log patientId appointmentId dueDate userId now).1.instances =
      db.instances ++
        (createMeasureInstances db sinkOk log patientId appointmentId dueDate userId now).2.1 := by
  constructor
  · simp [createMeasureInstances, mkInstances_length]
  · simp [createMeasureInstances]

/-- Claim C8: every instance the generator creates has the input due date
(defaulting to now), expires exactly `expirationDays` after its due date,
and starts in status PENDING. -/
theorem generated_instances_due_expiry_pending (db : Db) (sinkOk : Bool)
    (log : List AuditEvent) (patientId : Nat) (appointmentId : Option Nat)
    (dueDate : Option Int) (userId : Option Nat) (now : Int) (inst : MeasureInstance)
    (h : inst ∈ (createMeasureInstances db sinkOk log patientId appointmentId dueDate
        userId now).2.1) :
    inst.dueDate = dueDate.getD now ∧
    inst.expiresAt = inst.dueDate + (getDefaultPolicy db.policy).expirationDays ∧
    inst.status = MeasureInstanceStatus.PENDING := by
  simp only [createMeasureInstances] at h
  have hfields := mem_mkInstances _ _ _ _ _ _ _ h
  exact ⟨hfields.2.2.1, by rw [hfields.2.2.2.1, hfields.2.2.1], hfields.2.2.2.2⟩

/-- Claim C8 witness: instantiated on the empty fixture, the instance
created for patient 1 / encounter 1 is due at day 0, expires at day 7
(the default policy's expiration window), and is PENDING. -/
theorem generated_instances_due_expiry_pending_witness :
    mkInstance 1 (some 1) 0 7 1 100 ∈ generateOnce.2.1 ∧
    (mkInstance 1 (some 1) 0 7 1 100).dueDate = (some (0 : Int)).getD 0 ∧
    (mkInstance 1 (some 1) 0 7 1 100).expiresAt =
      (mkInstance 1 (some 1) 0 7 1 100).dueDate +
        (getDefaultPolicy dbEmpty.policy).expirationDays ∧
    (mkInstance 1 (some 1) 0 7 1 100).status = MeasureInstanceStatus.PENDING := by
  refine ⟨by decide, ?_⟩
  have h := generated_instances_due_expiry_pending dbEmpty true [] 1 (some 1) (some 0) none 0
    (mkInstance 1 (some 1) 0 7 1 100) (by decide)
  exact ⟨h.1, h.2.1, h.2.2⟩

/-- Claim C9: the compliance metric of the reporting window is exactly
100 when nothing was due, and otherwise 100·completed/due rounded to one
decimal place; four due with three completed yields 75. -/
theorem complianceRate_formula (totalDue totalCompleted : Nat) :
    complianceRateMetric totalDue totalCompleted =
      complianceRateSpec totalDue totalCompleted ∧
    complianceRateMetric 0 0 = 100 ∧
    complianceRateMetric 4 3 = 75 := by
  refine ⟨?_, by unfold complianceRateMetric; norm_num [round_eq],
    by unfold complianceRateMetric; norm_num [round_eq]⟩
  unfold complianceRateMetric complianceRateSpec roundToOneDecimal
  by_cases h : totalDue = 0
  · subst h
    norm_num
  · have hpos : 0 < totalDue := Nat.pos_of_ne_zero h
    rw [if_pos hpos, if_neg h]
    have harr : ((totalCompleted : ℚ) / (totalDue : ℚ)) * 100 =
        100 * (totalCompleted : ℚ) / (totalDue : ℚ) := by ring
    rw [harr]

/-- Helper: the sweep's per-row update leaves nothing that still matches
the sweep's where-clause. -/
theorem shouldExpire_after_mark (inst : MeasureInstance) (now : Int) :
    shouldExpire
      (if shouldExpire inst now then { inst with status := MeasureInstanceStatus.EXPIRED }
       else inst) now = false := by
  by_cases h : shouldExpire inst now = true
  · rw [if_pos h]; rfl
  · rw [if_neg h]; simpa using h

/-- Helper: mapping a function that fixes every element of a list is the
identity on that list. -/
theorem list_map_noop {α : Type} (f : α → α) (l : List α) (h : ∀ a ∈ l, f a = a) :
    l.map f = l := by
  induction l with
  | nil => rfl
  | cons x xs ih =>
    simp only [List.map_cons, h x (List.mem_cons_self x xs)]
    rw [ih (fun a ha => h a (List.mem_cons_of_mem x ha))]

/-- Claim C7: the sweep reports exactly the number of active instances
past expiry, transitions exactly those to EXPIRED while every other
instance and every other table is untouched, and running it again
immediately changes nothing and reports zero. -/
theorem markExpiredInstances_spec (db : Db) (now : Int) :
    (markExpiredInstances db now).2 =
      (db.instances.filter (fun i => shouldExpire i now)).length ∧
    (∀ inst ∈ db.instances, shouldExpire inst now = true →
      { inst with status := MeasureInstanceStatus.EXPIRED } ∈
        (markExpiredInstances db now).1.instances) ∧
    (∀ inst ∈ db.instances, shouldExpire inst now = false →
      inst ∈ (markExpiredInstances db now).1.instances) ∧
    (markExpiredInstances db now).1.instances.length = db.instances.length ∧
    (markExpiredInstances db now).1.policy = db.policy ∧
    (markExpiredInstances db now).1.measures = db.measures ∧
    (markExpiredInstances db now).1.appointments = db.appointments ∧
    (markExpiredInstances db now).1.responses = db.responses ∧
    markExpiredInstances (markExpiredInstances db now).1 now =
      ((markExpiredInstances db now).1, 0) := by
  refine ⟨rfl, ?_, ?_, by simp [markExpiredInstances], rfl, rfl, rfl, rfl, ?_⟩
  · intro inst hmem hexp
    have := List.mem_map_of_mem
      (fun i => if shouldExpire i now
        then { i with status := MeasureInstanceStatus.EXPIRED } else i) hmem
    simpa [markExpiredInstances, hexp] using this
  · intro inst hmem hexp
    have := List.mem_map_of_mem
      (fun i => if shouldExpire i now
        then { i with status := MeasureInstanceStatus.EXPIRED } else i) hmem
    simpa [markExpiredInstances, hexp] using this
  · have hnone : ∀ inst ∈ (markExpiredInstances db now).1.instances,
        shouldExpire inst now = false := by
      intro inst hmem
      simp only [markExpiredInstances, List.mem_map] at hmem
      obtain ⟨orig, _, horig⟩ := hmem
      rw [← horig]
      exact shouldExpire_after_mark orig now
    have hfilter : (markExpiredInstances db now).1.instances.filter
        (fun i => shouldExpire i now) = [] := by
      rw [List.filter_eq_nil_iff]
      intro inst hmem
      simp [hnone inst hmem]
    have hmap : (markExpiredInstances db now).1.instances.map (fun i =>
        if shouldExpire i now then { i with status := MeasureInstanceStatus.EXPIRED }
        else i) = (markExpiredInstances db now).1.instances := by
      refine list_map_noop _ _ (fun inst hmem => ?_)
      rw [if_neg (by simp [hnone inst hmem])]
    conv_lhs => rw [markExpiredInstances]
    rw [hmap, hfilter]
    rfl

/-- Database fixture for the sweep: one PENDING instance expiring at day
5 and one COMPLETED instance. -/
def dbSweep : Db :=
  ⟨some defaultPolicy, [phq9Measure], [], [pendingBoundaryInstance, completedInstance], [], 200⟩

/-- Claim C7 witness: sweeping the fixture at day 6 expires exactly the
overdue PENDING instance, and an immediate second sweep is a no-op. -/
theorem markExpiredInstances_spec_witness :
    (markExpiredInstances dbSweep 6).2 = 1 ∧
    { pendingBoundaryInstance with status := MeasureInstanceStatus.EXPIRED } ∈
      (markExpiredInstances dbSweep 6).1.instances ∧
    completedInstance ∈ (markExpiredInstances dbSweep 6).1.instances ∧
    markExpiredInstances (markExpiredInstances dbSweep 6).1 6 =
      ((markExpiredInstances dbSweep 6).1, 0) :=
  ⟨by decide,
   (markExpiredInstances_spec dbSweep 6).2.1 pendingBoundaryInstance (by decide) (by decide),
   (markExpiredInstances_spec dbSweep 6).2.2.1 completedInstance (by decide) (by decide),
   (markExpiredInstances_spec dbSweep 6).2.2.2.2.2.2.2.2⟩

/-- Claim C6: audit writes are fire-and-forget.  `logAuditEvent` resolves
successfully whether or not the underlying write succeeds (a failure only
skips the append), and the outcome of every accompanying operation —
questionnaire load, submission, manual send, instance generation — is
identical under a working and a failing audit sink. -/
theorem audit_failures_never_propagate
    (sinkOk s1 s2 : Bool) (t : AuditEventType) (ctx : AuditContext)
    (log l1 l2 : List AuditEvent)
    (foundG : Option (MeasureInstance × Measure × String))
    (foundP : Option (MeasureInstance × Measure))
    (foundS : Option (MeasureInstance × Patient × Measure))
    (answers : Option (List Answer)) (now : Int) (ip ua : Option String)
    (idGiven : Bool) (channel : String) (sr : SendResult)
    (db : Db) (patientId : Nat) (appointmentId : Option Nat) (dueDate : Option Int)
    (userId : Option Nat) :
    logAuditEvent sinkOk t ctx log =
      Except.ok (if sinkOk then log ++ [⟨t, ctx.userId, ctx.patientId, ctx.resourceType,
        ctx.resourceId, ctx.metadata, ctx.ipAddress, ctx.userAgent⟩] else log) ∧
    (questionnaireGET s1 foundG now ip ua l1).1 =
      (questionnaireGET s2 foundG now ip ua l2).1 ∧
    (questionnairePOST s1 foundP answers now ip ua l1).1 =
      (questionnairePOST s2 foundP answers now ip ua l2).1 ∧
    (notificationsSendPOST s1 idGiven channel foundS sr now l1).1 =
      (notificationsSendPOST s2 idGiven channel foundS sr now l2).1 ∧
    (createMeasureInstances db s1 l1 patientId appointmentId dueDate userId now).1 =
      (createMeasureInstances db s2 l2 patientId appointmentId dueDate userId now).1 ∧
    (createMeasureInstances db s1 l1 patientId appointmentId dueDate userId now).2.1 =
      (createMeasureInstances db s2 l2 patientId appointmentId dueDate userId now).2.1 := by
  refine ⟨by cases sinkOk <;> rfl, ?_, ?_, ?_, rfl, rfl⟩
  · cases foundG with
    | none => rfl
    | some im =>
      obtain ⟨inst, m, fn⟩ := im
      simp only [questionnaireGET]
      split_ifs <;> rfl
  · cases foundP with
    | none => rfl
    | some pm =>
      obtain ⟨inst, m⟩ := pm
      simp only [questionnairePOST]
      split_ifs <;> try rfl
      cases answers with
      | none => rfl
      | some al =>
        cases hsc : scoreMeasure m.name al <;> simp [hsc]
  · cases foundS with
    | none => simp only [notificationsSendPOST]; split_ifs <;> rfl
    | some ppm =>
      obtain ⟨inst, p, m⟩ := ppm
      simp only [notificationsSendPOST]
      split_ifs <;> try rfl
      all_goals cases p.email <;> rfl

/-- Claim C1 counterexample: CANCELLED is not terminal for the submit
path.  A submission against a CANCELLED instance whose link has not yet
expired does not fail with any error: it silently succeeds, creating a
response and moving the instance from CANCELLED to COMPLETED. -/
theorem submit_on_cancelled_succeeds :
    cancelledInstance.status = MeasureInstanceStatus.CANCELLED ∧
    (5 : Int) < cancelledInstance.expiresAt ∧
    (questionnairePOST true (some (cancelledInstance, phq9Measure)) (some answersNinePHQ)
        5 none none []).1 =
      Except.ok
        ({ cancelledInstance with
           status := MeasureInstanceStatus.COMPLETED
           completedAt := some 5 },
         ⟨cancelledInstance.id, answersNinePHQ, 9, "mild"⟩) := by
  decide

/-- Claim C1 (amended): COMPLETED is rejected by all three transition
paths with the distinct "already been completed" message; EXPIRED is
rejected by link open and notification send; a past-expiry link is
rejected by open and submit with the distinct "link has expired" message;
but CANCELLED is rejected only by the notification-send path — the open
and submit handlers never check it. -/
theorem terminal_states_amended (sinkOk : Bool) (inst : MeasureInstance) (m : Measure)
    (fn : String) (p : Patient) (sr : SendResult) (answers : Option (List Answer))
    (now : Int) (ip ua : Option String) (log : List AuditEvent)
    (hemail : p.email ≠ none) :
    (inst.status = MeasureInstanceStatus.COMPLETED →
      (questionnairePOST sinkOk (some (inst, m)) answers now ip ua log).1 =
        Except.error ⟨400, "This questionnaire has already been completed"⟩ ∧
      (questionnaireGET sinkOk (some (inst, m, fn)) now ip ua log).1 =
        Except.error ⟨400, "This questionnaire has already been completed"⟩ ∧
      (notificationsSendPOST sinkOk true "email" (some (inst, p, m)) sr now log).1 =
        Except.error ⟨400, "Cannot send notification for COMPLETED instance"⟩) ∧
    (inst.status = MeasureInstanceStatus.EXPIRED →
      (questionnaireGET sinkOk (some (inst, m, fn)) now ip ua log).1 =
        Except.error ⟨400, "This link has expired"⟩ ∧
      (notificationsSendPOST sinkOk true "email" (some (inst, p, m)) sr now log).1 =
        Except.error ⟨400, "Cannot send notification for expired instance"⟩) ∧
    (inst.status = MeasureInstanceStatus.CANCELLED →
      (notificationsSendPOST sinkOk true "email" (some (inst, p, m)) sr now log).1 =
        Except.error ⟨400, "Cannot send notification for CANCELLED instance"⟩) ∧
    (inst.status ≠ MeasureInstanceStatus.COMPLETED → inst.expiresAt < now →
      (questionnairePOST sinkOk (some (inst, m)) answers now ip ua log).1 =
        Except.error ⟨400, "This link has expired"⟩ ∧
      (questionnaireGET sinkOk (some (inst, m, fn)) now ip ua log).1 =
        Except.error ⟨400, "This link has expired"⟩) := by
  refine ⟨fun hc => ?_, fun he => ?_, fun hca => ?_, fun hnc hexp => ?_⟩
  · refine ⟨by simp [questionnairePOST, hc], by simp [questionnaireGET, hc], ?_⟩
    cases hpe : p.email with
    | none => exact absurd hpe hemail
    | some e => simp [notificationsSendPOST, hpe, hc, statusToString]
  · constructor
    · have hnc : inst.status ≠ MeasureInstanceStatus.COMPLETED := by rw [he]; decide
      simp [questionnaireGET, hnc, he]
    · cases hpe : p.email with
      | none => exact absurd hpe hemail
      | some e =>
        have h1 : ¬ (inst.status = MeasureInstanceStatus.COMPLETED ∨
            inst.status = MeasureInstanceStatus.CANCELLED) := by rw [he]; decide
        simp [notificationsSendPOST, hpe, h1, he]
  · cases hpe : p.email with
    | none => exact absurd hpe hemail
    | some e => simp [notificationsSendPOST, hpe, hca, statusToString]
  · exact ⟨by simp [questionnairePOST, hnc, hexp],
      by simp [questionnaireGET, hnc, hexp]⟩

/-- Claim C1 (amended) witness: a submission against a COMPLETED
instance fails with "already been completed", and a manual send for a
CANCELLED instance fails with the CANCELLED message. -/
theorem terminal_states_amended_witness :
    (questionnairePOST true (some (completedInstance, phq9Measure)) (some answersNinePHQ)
        5 none none []).1 =
      Except.error ⟨400, "This questionnaire has already been completed"⟩ ∧
    (notificationsSendPOST true true "email"
        (some (cancelledInstance, patientWithEmail, phq9Measure)) sendOkResult 5 []).1 =
      Except.error ⟨400, "Cannot send notification for CANCELLED instance"⟩ :=
  ⟨((terminal_states_amended true completedInstance phq9Measure "Alex" patientWithEmail
      sendOkResult (some answersNinePHQ) 5 none none [] (by decide)).1 rfl).1,
   (terminal_states_amended true cancelledInstance phq9Measure "Alex" patientWithEmail
      sendOkResult (some answersNinePHQ) 5 none none [] (by decide)).2.2.1 rfl⟩

/-- Claim C3 counterexample: at the boundary instant `now = expiresAt`
(so `now ≥ expiresAt` holds) the open and submit handlers both succeed,
because the code checks the strict `expiresAt < now`, not the claim's
`now ≥ expiresAt`. -/
theorem boundary_expiry_not_rejected :
    pendingBoundaryInstance.status = MeasureInstanceStatus.PENDING ∧
    pendingBoundaryInstance.expiresAt ≤ (5 : Int) ∧
    isOkResult (questionnaireGET true (some (pendingBoundaryInstance, phq9Measure, "Alex"))
        5 none none []).1 = true ∧
    isOkResult (questionnairePOST true (some (pendingBoundaryInstance, phq9Measure))
        (some answersNinePHQ) 5 none none []).1 = true := by
  decide

/-- Claim C3 (amended): for every instance with `expiresAt < now`
(strictly past expiry), opening the access link and submitting answers
both fail with the expiration error, even when the stored status is still
PENDING, SENT, or STARTED. -/
theorem expiry_checked_live (sinkOk : Bool) (inst : MeasureInstance) (m : Measure)
    (fn : String) (answers : Option (List Answer)) (now : Int) (ip ua : Option String)
    (log : List AuditEvent)
    (hactive : isActiveStatus inst.status = true) (hexp : inst.expiresAt < now) :
    (questionnaireGET sinkOk (some (inst, m, fn)) now ip ua log).1 =
      Except.error ⟨400, "This link has expired"⟩ ∧
    (questionnairePOST sinkOk (some (inst, m)) answers now ip ua log).1 =
      Except.error ⟨400, "This link has expired"⟩ := by
  have hnc : inst.status ≠ MeasureInstanceStatus.COMPLETED := by
    intro hc; rw [hc] at hactive; exact absurd hactive (by decide)
  exact ⟨by simp [questionnaireGET, hnc, hexp], by simp [questionnairePOST, hnc, hexp]⟩

/-- Claim C3 (amended) witness: one day past expiry, the PENDING fixture
instance is refused on both open and submit with the expiration error. -/
theorem expiry_checked_live_witness :
    (questionnaireGET true (some (pendingBoundaryInstance, phq9Measure, "Alex"))
        6 none none []).1 =
      Except.error ⟨400, "This link has expired"⟩ ∧
    (questionnairePOST true (some (pendingBoundaryInstance, phq9Measure))
        (some answersNinePHQ) 6 none none []).1 =
      Except.error ⟨400, "This link has expired"⟩ :=
  expiry_checked_live true pendingBoundaryInstance phq9Measure "Alex" (some answersNinePHQ)
    6 none none [] (by decide) (by decide)

/-- Claim C4 counterexample: the answer count is never validated against
the measure's question count.  Three answers against the nine-question
PHQ-9 are accepted: the submission succeeds, the instance is COMPLETED,
and a response row is created with the three answers scored as given. -/
theorem count_mismatch_accepted :
    answersThreePHQ.length = 3 ∧
    phq9Measure.questions.length = 9 ∧
    (questionnairePOST true (some (startedInstance, phq9Measure)) (some answersThreePHQ)
        5 none none []).1 =
      Except.ok
        ({ startedInstance with
           status := MeasureInstanceStatus.COMPLETED
           completedAt := some 5 },
         ⟨startedInstance.id, answersThreePHQ, 3, "minimal"⟩) ∧
    (submitQuestionnaire dbStarted true [] 12 (some answersThreePHQ) 5).2.1 = none ∧
    (submitQuestionnaire dbStarted true [] 12 (some answersThreePHQ) 5).1.responses.length = 1 := by
  decide

/-- Helper: summing answers fails as soon as the list contains a value
outside 0..3, whatever the accumulator. -/
theorem totalScoreAux_error_of_invalid (answers : List Answer) (a : Answer)
    (ha : a ∈ answers) (hval : a.value < 0 ∨ a.value > 3) :
    ∀ acc : Int, ∃ e, totalScoreAux acc answers = Except.error e := by
  induction answers with
  | nil => simp at ha
  | cons x xs ih =>
    intro acc
    by_cases hx : x.value < 0 ∨ x.value > 3
    · exact ⟨_, by rw [totalScoreAux, if_pos hx]⟩
    · rcases List.mem_cons.mp ha with rfl | hmem
      · exact absurd hval hx
      · obtain ⟨e, he⟩ := ih hmem (acc + x.value)
        exact ⟨e, by rw [totalScoreAux, if_neg hx]; exact he⟩

/-- Helper: `scoreMeasure` rejects any answer list containing an
out-of-range value, for every measure name. -/
theorem scoreMeasure_error_of_invalid (measureName : String) (answers : List Answer)
    (a : Answer) (ha : a ∈ answers) (hval : a.value < 0 ∨ a.value > 3) :
    ∃ e, scoreMeasure measureName answers = Except.error e := by
  have hne : answers.isEmpty = false := by
    cases answers with
    | nil => simp at ha
    | cons x xs => rfl
  obtain ⟨e, he⟩ := totalScoreAux_error_of_invalid answers a ha hval 0
  unfold scoreMeasure scorePHQ9 scoreGAD7 scoreAssessment
  split_ifs <;> simp [hne, he]

/-- Helper: `scoreMeasure` rejects the empty answer list for every
measure name. -/
theorem scoreMeasure_error_of_empty (measureName : String) :
    ∃ e, scoreMeasure measureName [] = Except.error e := by
  unfold scoreMeasure scorePHQ9 scoreGAD7 scoreAssessment
  split_ifs <;> simp_all

/-- Claim C4 (amended): a submission is rejected with HTTP 400 — and the
database is left untouched, so the instance is not completed and no
response row is created — when the answer list is empty, when it contains
a value outside the allowed 0..3 range, or when the measure name is
unknown to the scorer; the answer count itself is never checked against
the measure's question count. -/
theorem submission_validation_amended (sinkOk : Bool) (inst : MeasureInstance)
    (m : Measure) (now : Int) (ip ua : Option String) (log : List AuditEvent)
    (hnc : inst.status ≠ MeasureInstanceStatus.COMPLETED)
    (hexp : ¬ inst.expiresAt < now) :
    (∃ msg, (questionnairePOST sinkOk (some (inst, m)) (some []) now ip ua log).1 =
      Except.error ⟨400, msg⟩) ∧
    (∀ answers a, a ∈ answers → a.value < 0 ∨ a.value > 3 →
      ∃ msg, (questionnairePOST sinkOk (some (inst, m)) (some answers) now ip ua log).1 =
        Except.error ⟨400, msg⟩) ∧
    (toUpperCase m.name ≠ "PHQ-9" → toUpperCase m.name ≠ "GAD-7" → ∀ answers,
      (questionnairePOST sinkOk (some (inst, m)) (some answers) now ip ua log).1 =
        Except.error ⟨400, "Unknown measure: " ++ m.name⟩) ∧
    (∀ (db : Db) (lg : List AuditEvent) (token : Nat) (body : Option (List Answer))
      (e : ErrorResponse),
      (submitQuestionnaire db sinkOk lg token body now).2.1 = some e →
      (submitQuestionnaire db sinkOk lg token body now).1 = db) := by
  refine ⟨?_, ?_, ?_, ?_⟩
  · obtain ⟨e, he⟩ := scoreMeasure_error_of_empty m.name
    exact ⟨e, by simp [questionnairePOST, hnc, hexp, he]⟩
  · intro answers a ha hval
    obtain ⟨e, he⟩ := scoreMeasure_error_of_invalid m.name answers a ha hval
    exact ⟨e, by simp [questionnairePOST, hnc, hexp, he]⟩
  · intro h1 h2 answers
    have hsc : scoreMeasure m.name answers =
        Except.error ("Unknown measure: " ++ m.name) := by
      unfold scoreMeasure
      rw [if_neg h1, if_neg h2]
    simp [questionnairePOST, hnc, hexp, hsc]
  · intro db lg token body e
    unfold submitQuestionnaire
    rcases hq : questionnairePOST sinkOk (findByToken db token) body now none none lg
      with ⟨res, logAfter⟩
    cases res with
    | error err => intro _; rfl
    | ok pr => intro hcontra; simp at hcontra

/-- Claim C4 (amended) witness: against the STARTED fixture instance, an
empty answer list is rejected with a 400 error, an out-of-range value is
rejected with a 400 error, and an error outcome leaves the database
unchanged. -/
theorem submission_validation_amended_witness :
    (∃ msg, (questionnairePOST true (some (startedInstance, phq9Measure)) (some [])
        5 none none []).1 = Except.error ⟨400, msg⟩) ∧
    (∃ msg, (questionnairePOST true (some (startedInstance, phq9Measure))
        (some [⟨1, 7⟩]) 5 none none []).1 = Except.error ⟨400, msg⟩) ∧
    ((submitQuestionnaire dbStarted true [] 12 (some []) 5).2.1 =
        some ⟨400, "No answers provided"⟩ →
      (submitQuestionnaire dbStarted true [] 12 (some []) 5).1 = dbStarted) := by
  refine ⟨?_, ?_, ?_⟩
  · exact (submission_validation_amended true startedInstance phq9Measure 5 none none []
      (by decide) (by decide)).1
  · exact (submission_validation_amended true startedInstance phq9Measure 5 none none []
      (by decide) (by decide)).2.1 [⟨1, 7⟩] ⟨1, 7⟩ (by decide) (by decide)
  · exact (submission_validation_amended true startedInstance phq9Measure 5 none none []
      (by decide) (by decide)).2.2.2 dbStarted [] 12 (some []) ⟨400, "No answers provided"⟩

/-- Invariant tying response rows to completed instances: every response
belongs to an instance that exists and is COMPLETED. -/
def responseInvariant (db : Db) : Prop :=
  ∀ r ∈ db.responses, ∃ i ∈ db.instances,
    i.id = r.measureInstanceId ∧ i.status = MeasureInstanceStatus.COMPLETED

/-- Helper: a successful submit handler outcome always consists of the
found instance marked COMPLETED together with a response row referencing
that same instance. -/
theorem questionnairePOST_ok_shape (sinkOk : Bool)
    (found : Option (MeasureInstance × Measure)) (answers : Option (List Answer))
    (now : Int) (ip ua : Option String) (log logAfter : List AuditEvent)
    (updated : MeasureInstance) (resp : MeasureResponse)
    (h : questionnairePOST sinkOk found answers now ip ua log =
      (Except.ok (updated, resp), logAfter)) :
    ∃ inst m, found = some (inst, m) ∧
      updated = { inst with
        status := MeasureInstanceStatus.COMPLETED
        completedAt := some now } ∧
      resp.measureInstanceId = inst.id := by
  cases found with
  | none => simp [questionnairePOST] at h
  | some pm =>
    obtain ⟨inst, m⟩ := pm
    refine ⟨inst, m, rfl, ?_⟩
    simp only [questionnairePOST] at h
    split_ifs at h with h1 h2
    · simp at h
    · simp at h
    · cases answers with
      | none => simp at h
      | some al =>
        cases hsc : scoreMeasure m.name al with
        | error e => simp [hsc] at h
        | ok sr =>
          simp only [hsc, Prod.mk.injEq, Except.ok.injEq] at h
          obtain ⟨⟨hu, hr⟩, -⟩ := h
          exact ⟨hu.symm, by rw [← hr]⟩

/-- Helper: the instance returned by the token lookup is a row of the
database. -/
theorem findByToken_mem (db : Db) (token : Nat) (inst : MeasureInstance) (m : Measure)
    (h : findByToken db token = some (inst, m)) : inst ∈ db.instances := by
  unfold findByToken at h
  cases hf : db.instances.find? (fun i => i.token = token) with
  | none => rw [hf] at h; simp at h
  | some i0 =>
    simp only [hf] at h
    cases hm : db.measures.find? (fun mm => mm.id = i0.measureId) with
    | none => simp [hm] at h
    | some m0 =>
      simp only [hm, Option.some.injEq, Prod.mk.injEq] at h
      rw [← h.1]
      exact List.mem_of_find?_eq_some hf

/-- Claim C5: the COMPLETED transition is atomic.  If every existing
response belongs to a COMPLETED instance, the same holds after any
submission: on success the response row and the COMPLETED status update
land together, and on any error the database is completely unchanged, so
no execution leaves a response row beside a non-COMPLETED instance. -/
theorem completed_transition_atomic (db : Db) (sinkOk : Bool) (log : List AuditEvent)
    (token : Nat) (answers : Option (List Answer)) (now : Int)
    (hinv : responseInvariant db) :
    responseInvariant (submitQuestionnaire db sinkOk log token answers now).1 ∧
    (∀ e, (submitQuestionnaire db sinkOk log token answers now).2.1 = some e →
      (submitQuestionnaire db sinkOk log token answers now).1 = db) ∧
    ((submitQuestionnaire db sinkOk log token answers now).2.1 = none →
      (submitQuestionnaire db sinkOk log token answers now).1.responses.length =
        db.responses.length + 1) := by
  rcases hq : questionnairePOST sinkOk (findByToken db token) answers now none none log
    with ⟨res, logAfter⟩
  cases res with
  | error e =>
    have hsq : submitQuestionnaire db sinkOk log token answers now = (db, some e, logAfter) := by
      unfold submitQuestionnaire
      rw [hq]
    rw [hsq]
    exact ⟨hinv, fun _ _ => rfl, by simp⟩
  | ok pr =>
    obtain ⟨updated, resp⟩ := pr
    obtain ⟨inst, m, hfound, hupd, hresp⟩ :=
      questionnairePOST_ok_shape sinkOk (findByToken db token) answers now none none log
        logAfter updated resp hq
    have hmem : inst ∈ db.instances := findByToken_mem db token inst m hfound
    have hid : inst.id = updated.id := by rw [hupd]
    have hstatus : updated.status = MeasureInstanceStatus.COMPLETED := by rw [hupd]
    have hsq : submitQuestionnaire db sinkOk log token answers now =
        ({ db with instances := updateInstance db.instances updated,
                   responses := db.responses ++ [resp] }, none, logAfter) := by
      unfold submitQuestionnaire
      rw [hq]
    rw [hsq]
    refine ⟨?_, fun e h => by simp at h, fun _ => by simp⟩
    intro r hr
    simp only [List.mem_append, List.mem_singleton] at hr
    rcases hr with hr | rfl
    · obtain ⟨i, hi, hiid, histatus⟩ := hinv r hr
      refine ⟨if i.id = updated.id then updated else i, ?_, ?_, ?_⟩
      · exact List.mem_map_of_mem (fun j => if j.id = updated.id then updated else j) hi
      · by_cases hc : i.id = updated.id
        · rw [if_pos hc, ← hc, hiid]
        · rw [if_neg hc]; exact hiid
      · by_cases hc : i.id = updated.id
        · rw [if_pos hc]; exact hstatus
        · rw [if_neg hc]; exact histatus
    · refine ⟨updated, ?_, ?_, hstatus⟩
      · have himg := List.mem_map_of_mem
          (fun j => if j.id = updated.id then updated else j) hmem
        simp only [] at himg
        rw [if_pos hid] at himg
        exact himg
      · rw [← hid, hresp]

/-- Claim C5 witness: submitting nine valid answers against the STARTED
fixture preserves the response invariant and appends exactly one response
row. -/
theorem completed_transition_atomic_witness :
    responseInvariant (submitQuestionnaire dbStarted true [] 12 (some answersNinePHQ) 5).1 ∧
    (submitQuestionnaire dbStarted true [] 12 (some answersNinePHQ) 5).1.responses.length =
      dbStarted.responses.length + 1 :=
  ⟨(completed_transition_atomic dbStarted true [] 12 (some answersNinePHQ) 5
      (fun r hr => absurd hr (by simp [dbStarted]))).1,
   (completed_transition_atomic dbStarted true [] 12 (some answersNinePHQ) 5
      (fun r hr => absurd hr (by simp [dbStarted]))).2.2 (by decide)⟩

/-- Claim C10: the questionnaire GET handler serves a CANCELLED instance
whose link has not yet expired exactly like a live one — it returns the
full question payload, writes nothing (the returned instance row, its
timestamps and the audit log are unchanged) — and it rejects precisely
the unknown-token, COMPLETED, EXPIRED and past-expiry cases. -/
theorem cancelled_get_serves_content (sinkOk : Bool) (inst : MeasureInstance)
    (m : Measure) (fn : String) (now : Int) (ip ua : Option String)
    (log : List AuditEvent)
    (hc : inst.status = MeasureInstanceStatus.CANCELLED)
    (hexp : now < inst.expiresAt) :
    questionnaireGET sinkOk (some (inst, m, fn)) now ip ua log =
      (Except.ok (inst,
        ⟨inst.id, m.name, m.description, fn,
         m.questions.map (fun q => ⟨q.questionNum, q.questionText, q.minValue, q.maxValue⟩)⟩),
       log) ∧
    (∀ inst2 m2 fn2,
      isErrorResult (questionnaireGET sinkOk (some (inst2, m2, fn2)) now ip ua log).1 = true ↔
        (inst2.status = MeasureInstanceStatus.COMPLETED ∨
         inst2.status = MeasureInstanceStatus.EXPIRED ∨ inst2.expiresAt < now)) ∧
    isErrorResult (questionnaireGET sinkOk none now ip ua log).1 = true := by
  refine ⟨?_, ?_, rfl⟩
  · have hne : ¬ inst.expiresAt < now := not_lt.mpr (le_of_lt hexp)
    simp [questionnaireGET, hc, hne]
  · intro inst2 m2 fn2
    simp only [questionnaireGET]
    split_ifs with h1 h2 h3 <;> simp [isErrorResult, h1]
    · exact h2
    · obtain ⟨h2a, h2b⟩ := not_or.mp h2
      exact ⟨h2a, by simpa using h2b⟩
    · obtain ⟨h2a, h2b⟩ := not_or.mp h2
      exact ⟨h2a, by simpa using h2b⟩

/-- Claim C10 witness: the CANCELLED fixture instance, read at day 5
before its day-10 expiry, is served with the full PHQ-9 question list and
left untouched. -/
theorem cancelled_get_serves_content_witness :
    questionnaireGET true (some (cancelledInstance, phq9Measure, "Alex")) 5 none none [] =
      (Except.ok (cancelledInstance,
        ⟨cancelledInstance.id, phq9Measure.name, phq9Measure.description, "Alex",
         phq9Measure.questions.map (fun q =>
           ⟨q.questionNum, q.questionText, q.minValue, q.maxValue⟩)⟩),
       []) :=
  (cancelled_get_serves_content true cancelledInstance phq9Measure "Alex" 5 none none []
    (by decide) (by decide)).1

end MbcTracker
